import Mathlib

/-!
# KGL Backend API — verification of the procurement/sales rule set

Shallow embedding of the Karibu Groceries backend (Express + Mongoose).
The embedded parts are:

* the field-validation chains of `src/routes/procurementRoutes.js` and
  `src/routes/salesRoutes.js` (express-validator `body(...)` chains),
* the Mongoose models `src/models/Procurement.js` and `src/models/Sale.js`
  (the `Sale` base schema has `timestamps: true` and a `saleType`
  discriminator with variants `Cash` and `Credit`),
* the seven route handlers (POST /procurement, GET /procurement,
  GET /procurement/:id, POST /sales/cash, POST /sales/credit, GET /sales,
  PATCH /sales/credit/:id/payment).

JSON body values are modelled by `JVal`; a missing key reads as `jundef`.
Machine time is a `Nat` (milliseconds since the epoch) threaded into each
handler as `now`; Mongo object ids are `Nat`s supplied as `fid` at creation.
-/

/-- A JavaScript/JSON value as seen by the route handlers.  Numbers are
exact rationals (the JSON texts the API receives are decimal literals). -/
inductive JVal where
  | jundef
  | jnull
  | jbool (b : Bool)
  | jnum (q : Rat)
  | jstr (s : String)
deriving DecidableEq, Repr

/-- JS truthiness, used by the `x || new Date()` default-fill in the
handlers: `undefined`, `null`, `false`, `0` and `""` are falsy. -/
def truthy : JVal → Bool
  | .jundef => false
  | .jnull => false
  | .jbool b => b
  | .jnum q => decide (q ≠ 0)
  | .jstr s => decide (s ≠ "")

/-- Value of a digit list, most significant first. -/
def digitsVal (l : List Char) : Nat :=
  l.foldl (fun a c => a * 10 + (c.toNat - 48)) 0

/-- Parse a decimal integer string with optional sign, as accepted by
validator.js `isInt` (leading zeroes allowed by default). -/
def parseIntStr (s : String) : Option Int :=
  match s.toList with
  | [] => none
  | '-' :: r =>
    if r ≠ [] ∧ r.all Char.isDigit then some (-(digitsVal r : Int)) else none
  | '+' :: r =>
    if r ≠ [] ∧ r.all Char.isDigit then some ((digitsVal r : Int)) else none
  | l =>
    if l ≠ [] ∧ l.all Char.isDigit then some ((digitsVal l : Int)) else none

/-- Parse an unsigned decimal numeral, optionally with a fractional part
(`"123"`, `"123.45"`, `".5"`, `"123."`). -/
def parseUnsignedRat (l : List Char) : Option Rat :=
  match l.splitOn '.' with
  | [ip] => if ip ≠ [] ∧ ip.all Char.isDigit then some ((digitsVal ip : Nat) : Rat) else none
  | [ip, fp] =>
    if (ip ≠ [] ∨ fp ≠ []) ∧ ip.all Char.isDigit ∧ fp.all Char.isDigit then
      some (((digitsVal ip : Nat) : Rat) + ((digitsVal fp : Nat) : Rat) / ((10 : Rat) ^ fp.length))
    else none
  | _ => none

/-- Parse a decimal number string with optional sign, as accepted by
validator.js `isFloat`. -/
def parseRatStr (s : String) : Option Rat :=
  match s.toList with
  | '-' :: r => (parseUnsignedRat r).map (fun q => -q)
  | '+' :: r => parseUnsignedRat r
  | l => parseUnsignedRat l

/-- express-validator stringifies the candidate value before handing it to a
validator.js check: `undefined`/`null` become `""`, booleans their literal
text, numbers their decimal text.  For a number with a fractional part the
decimal text contains a `.`; none of the patterns or length bounds used in
this API distinguish among those strings in a way the claims exercise, so
that case is returned as `none` and handled per validator. -/
def jvalToStr : JVal → Option String
  | .jundef => some ""
  | .jnull => some ""
  | .jbool b => some (if b then "true" else "false")
  | .jnum q => if q.den = 1 then some (toString q.num) else none
  | .jstr s => some s

/-- The integer a body value denotes under validator.js `isInt`:
an integral JS number, or a string parsing as a signed decimal integer. -/
def jvalInt : JVal → Option Int
  | .jnum q => if q.den = 1 then some q.num else none
  | .jstr s => parseIntStr s
  | _ => none

/-- The number a body value denotes under validator.js `isFloat`. -/
def jvalNum : JVal → Option Rat
  | .jnum q => some q
  | .jstr s => parseRatStr s
  | _ => none

/-- Validator `body(f).isInt({ min })`: the value denotes an integer `≥ min`. -/
def isIntMin (m : Int) (v : JVal) : Bool :=
  match jvalInt v with
  | some n => decide (m ≤ n)
  | none => false

/-- Validator `body(f).isFloat({ min })`: the value denotes a number `≥ min`. -/
def isFloatMin (m : Rat) (v : JVal) : Bool :=
  match jvalNum v with
  | some q => decide (m ≤ q)
  | none => false

/-- A character matched by the regex class `[a-zA-Z0-9\s]`. -/
def isAlnumSpaceChar (c : Char) : Bool :=
  c.isAlpha || c.isDigit || c = ' ' || c = '\t' || c = '\n' || c = '\r'

/-- A character matched by the regex class `[a-zA-Z\s]`. -/
def isAlphaSpaceChar (c : Char) : Bool :=
  c.isAlpha || c = ' ' || c = '\t' || c = '\n' || c = '\r'

/-- The regex `^[a-zA-Z0-9\s]+$`. -/
def alnumSpaceStr (s : String) : Bool :=
  !s.isEmpty && s.toList.all isAlnumSpaceChar

/-- The regex `^[a-zA-Z\s]+$`. -/
def alphaSpaceStr (s : String) : Bool :=
  !s.isEmpty && s.toList.all isAlphaSpaceChar

/-- The regex `^[0-9]{10,12}$` (phone numbers). -/
def phoneStr (s : String) : Bool :=
  s.toList.all Char.isDigit && decide (10 ≤ s.length) && decide (s.length ≤ 12)

/-- The regex `^[A-Z0-9]{10,15}$` (national id). -/
def ninStr (s : String) : Bool :=
  s.toList.all (fun c => c.isUpper || c.isDigit) && decide (10 ≤ s.length) && decide (s.length ≤ 15)

/-- Hour alternative `([0-1]?[0-9]|2[0-3])` of the time regex. -/
def hourChars : List Char → Bool
  | [c] => c.isDigit
  | [c1, c2] => ((c1 = '0' || c1 = '1') && c2.isDigit) || (c1 = '2' && ('0' ≤ c2 && c2 ≤ '3'))
  | _ => false

/-- Minute part `[0-5][0-9]` of the time regex. -/
def minuteChars : List Char → Bool
  | [c1, c2] => ('0' ≤ c1 && c1 ≤ '5') && c2.isDigit
  | _ => false

/-- The regex `^([0-1]?[0-9]|2[0-3]):[0-5][0-9]$` (24h HH:MM). -/
def timeStr (s : String) : Bool :=
  match s.toList.splitOn ':' with
  | [h, m] => hourChars h && minuteChars m
  | _ => false

/-- validator.js `isISO8601` restricted to the calendar-date form the API
receives: `YYYY-MM-DD` with a plausible month and day. -/
def iso8601Str (s : String) : Bool :=
  match s.toList.splitOn '-' with
  | [y, m, d] =>
    y.all Char.isDigit && decide (y.length = 4) &&
    m.all Char.isDigit && decide (m.length = 2) &&
    d.all Char.isDigit && decide (d.length = 2) &&
    decide (1 ≤ digitsVal m) && decide (digitsVal m ≤ 12) &&
    decide (1 ≤ digitsVal d) && decide (digitsVal d ≤ 31)
  | _ => false

/-- Validator `body(f).matches(re)` on a body value: the stringified value matches.
A non-integral number stringifies with a `.`, which every pattern used in
this API rejects. -/
def matchesPat (p : String → Bool) (v : JVal) : Bool :=
  match jvalToStr v with
  | some s => p s
  | none => false

/-- Validator `body(f).isLength({ min })` on a body value.  A non-integral number
stringifies to at least three characters (`0.5`), at least the only bound
(2) this API uses. -/
def lenAtLeast (n : Nat) (v : JVal) : Bool :=
  match jvalToStr v with
  | some s => decide (n ≤ s.length)
  | none => true

/-- Validator `body(f).notEmpty()`: the stringified value is non-empty. -/
def jvalNotEmpty (v : JVal) : Bool :=
  match jvalToStr v with
  | some s => !s.isEmpty
  | none => true

/-- Validator `body(f).isIn(list)`: the stringified value is one of the listed
strings. -/
def isInList (l : List String) (v : JVal) : Bool :=
  match jvalToStr v with
  | some s => l.contains s
  | none => false

/-- One element of the `errors` array returned on validation failure:
the offending field and its human-readable message. -/
structure FieldError where
  field : String
  message : String
deriving DecidableEq, Repr

/-- One express-validator check: an empty contribution when the check
passes, the field/message pair when it fails.  `validationResult` collects
the contributions of every check of every chain. -/
def check (f m : String) (ok : Bool) : List FieldError :=
  if ok then [] else [⟨f, m⟩]

/-- An authenticated user (the document `protect` attaches as `req.user`).
Roles are the literal strings of the code: `Manager`, `Sales Agent`. -/
structure User where
  id : Nat
  name : String
  email : String
  role : String
deriving DecidableEq, Repr

/-- A date-valued field of a stored record: either the body value passed
through by the handler, or the server clock at handling time
(`new Date()` / the schema default `Date.now`). -/
inductive DateVal where
  | fromBody (v : JVal)
  | now (t : Nat)
deriving DecidableEq, Repr

/-- A persisted procurement record (`src/models/Procurement.js`).  Strings
are stored as the (validated) body strings; `date` keeps the default-fill
outcome; `createdAt` is the schema default `Date.now`. -/
structure ProcRec where
  id : Nat
  produceName : String
  produceType : String
  date : DateVal
  time : String
  tonnage : Int
  cost : Rat
  dealerName : String
  branch : String
  contact : String
  sellingPrice : Rat
  recordedBy : Nat
  createdAt : Nat
deriving DecidableEq, Repr

/-- A persisted cash sale (`Cash` discriminator of `src/models/Sale.js`).
The base schema has `timestamps: true`, hence `updatedAt`. -/
structure CashSaleRec where
  id : Nat
  produceName : String
  tonnage : Int
  amountPaid : Rat
  buyerName : String
  salesAgentName : String
  date : DateVal
  time : String
  recordedBy : Nat
  createdAt : Nat
  updatedAt : Nat
deriving DecidableEq, Repr

/-- A persisted credit sale (`Credit` discriminator of
`src/models/Sale.js`).  `isPaid` defaults to `false`, `paymentDate` is
nullable; the base schema's `timestamps: true` adds `updatedAt`. -/
structure CreditSaleRec where
  id : Nat
  buyerName : String
  nationalId : String
  location : String
  contacts : String
  amountDue : Rat
  salesAgentName : String
  dueDate : DateVal
  produceName : String
  produceType : String
  tonnage : Int
  dispatchDate : DateVal
  isPaid : Bool
  paymentDate : Option DateVal
  recordedBy : Nat
  createdAt : Nat
  updatedAt : Nat
deriving DecidableEq, Repr

/-- A document of the single `sales` collection, discriminated by
`saleType` (`Cash` or `Credit`). -/
inductive SaleRec where
  | cash (c : CashSaleRec)
  | credit (c : CreditSaleRec)
deriving DecidableEq, Repr

/-- The persisted state: the procurement collection, the sales collection
and the user collection (the latter only read, for `populate`). -/
structure DB where
  procurements : List ProcRec
  sales : List SaleRec
  users : List User
deriving DecidableEq, Repr

/-- The body of POST /procurement.  A key the client did not send reads as
`jundef`; `recordedBy` records that a client may also send that key. -/
structure ProcBody where
  produceName : JVal := .jundef
  produceType : JVal := .jundef
  date : JVal := .jundef
  time : JVal := .jundef
  tonnage : JVal := .jundef
  cost : JVal := .jundef
  dealerName : JVal := .jundef
  branch : JVal := .jundef
  contact : JVal := .jundef
  sellingPrice : JVal := .jundef
  recordedBy : JVal := .jundef
deriving DecidableEq, Repr

/-- The body of POST /sales/cash. -/
structure CashBody where
  produceName : JVal := .jundef
  tonnage : JVal := .jundef
  amountPaid : JVal := .jundef
  buyerName : JVal := .jundef
  salesAgentName : JVal := .jundef
  date : JVal := .jundef
  time : JVal := .jundef
  recordedBy : JVal := .jundef
deriving DecidableEq, Repr

/-- The body of POST /sales/credit. -/
structure CreditBody where
  buyerName : JVal := .jundef
  nationalId : JVal := .jundef
  location : JVal := .jundef
  contacts : JVal := .jundef
  amountDue : JVal := .jundef
  salesAgentName : JVal := .jundef
  dueDate : JVal := .jundef
  produceName : JVal := .jundef
  produceType : JVal := .jundef
  tonnage : JVal := .jundef
  dispatchDate : JVal := .jundef
  isPaid : JVal := .jundef
  paymentDate : JVal := .jundef
  recordedBy : JVal := .jundef
deriving DecidableEq, Repr

/-- The validator array of `router.post('/')` in
`src/routes/procurementRoutes.js` (lines 78–90), checks in source order;
each chain contributes one error per failing check and all contributions
are collected. -/
def validateProcBody (b : ProcBody) : List FieldError :=
  check "produceName" "Produce name must be alphanumeric" (matchesPat alnumSpaceStr b.produceName) ++
  check "produceType" "Produce type must be at least 2 characters" (lenAtLeast 2 b.produceType) ++
  check "produceType" "Produce type must contain only letters" (matchesPat alphaSpaceStr b.produceType) ++
  check "time" "Please enter valid time (HH:MM)" (matchesPat timeStr b.time) ++
  check "tonnage" "Tonnage must be at least 100 kg" (isIntMin 100 b.tonnage) ++
  check "cost" "Cost must be at least 10,000 UgX" (isFloatMin 10000 b.cost) ++
  check "dealerName" "Dealer name must be at least 2 characters" (lenAtLeast 2 b.dealerName) ++
  check "dealerName" "Dealer name must be alphanumeric" (matchesPat alnumSpaceStr b.dealerName) ++
  check "branch" "Branch must be Maganjo or Matugga" (isInList ["Maganjo", "Matugga"] b.branch) ++
  check "contact" "Please enter a valid phone number" (matchesPat phoneStr b.contact) ++
  check "sellingPrice" "Selling price must be at least 1,000 UgX" (isFloatMin 1000 b.sellingPrice)

/-- The validator array of `router.post('/cash')` in
`src/routes/salesRoutes.js` (lines 67–76). -/
def validateCashBody (b : CashBody) : List FieldError :=
  check "produceName" "Produce name is required" (jvalNotEmpty b.produceName) ++
  check "tonnage" "Tonnage must be at least 1 kg" (isIntMin 1 b.tonnage) ++
  check "amountPaid" "Amount paid must be at least 10,000 UgX" (isFloatMin 10000 b.amountPaid) ++
  check "buyerName" "Buyer name must be at least 2 characters" (lenAtLeast 2 b.buyerName) ++
  check "buyerName" "Buyer name must be alphanumeric" (matchesPat alnumSpaceStr b.buyerName) ++
  check "salesAgentName" "Sales agent name must be at least 2 characters" (lenAtLeast 2 b.salesAgentName) ++
  check "salesAgentName" "Sales agent name must be alphanumeric" (matchesPat alnumSpaceStr b.salesAgentName) ++
  check "time" "Please enter valid time (HH:MM)" (matchesPat timeStr b.time)

/-- The validator array of `router.post('/credit')` in
`src/routes/salesRoutes.js` (lines 168–182). -/
def validateCreditBody (b : CreditBody) : List FieldError :=
  check "buyerName" "Buyer name must be at least 2 characters" (lenAtLeast 2 b.buyerName) ++
  check "buyerName" "Buyer name must be alphanumeric" (matchesPat alnumSpaceStr b.buyerName) ++
  check "nationalId" "Please enter a valid NIN" (matchesPat ninStr b.nationalId) ++
  check "location" "Location must be at least 2 characters" (lenAtLeast 2 b.location) ++
  check "location" "Location must be alphanumeric" (matchesPat alnumSpaceStr b.location) ++
  check "contacts" "Please enter a valid phone number" (matchesPat phoneStr b.contacts) ++
  check "amountDue" "Amount due must be at least 10,000 UgX" (isFloatMin 10000 b.amountDue) ++
  check "salesAgentName" "Sales agent name must be at least 2 characters" (lenAtLeast 2 b.salesAgentName) ++
  check "salesAgentName" "Sales agent name must be alphanumeric" (matchesPat alnumSpaceStr b.salesAgentName) ++
  check "dueDate" "Please enter a valid due date" (matchesPat iso8601Str b.dueDate) ++
  check "produceName" "Produce name is required" (jvalNotEmpty b.produceName) ++
  check "produceType" "Produce type is required" (jvalNotEmpty b.produceType) ++
  check "tonnage" "Tonnage must be at least 1 kg" (isIntMin 1 b.tonnage)

/-- The minimal projection `populate('recordedBy', 'name email')` attaches
in place of the raw reference. -/
structure UserView where
  name : String
  email : String
deriving DecidableEq, Repr

/-- Resolve a `recordedBy` reference against the user collection
(`populate`); an unmatched reference populates to null. -/
def userView (us : List User) (id : Nat) : Option UserView :=
  (us.find? (fun u => u.id = id)).map (fun u => ⟨u.name, u.email⟩)

/-- Stable insertion for a newest-createdAt-first ordering. -/
def insertByCreatedAt (p : ProcRec) : List ProcRec → List ProcRec
  | [] => [p]
  | q :: r => if q.createdAt < p.createdAt then p :: q :: r else q :: insertByCreatedAt p r

/-- Ordering `sort({ createdAt: -1 })` on the procurement collection. -/
def sortProcsDesc : List ProcRec → List ProcRec
  | [] => []
  | p :: r => insertByCreatedAt p (sortProcsDesc r)

/-- Response payloads the handlers produce under `data`. -/
inductive Payload where
  | procOne (p : ProcRec)
  | procPop (p : ProcRec) (u : Option UserView)
  | procList (l : List (ProcRec × Option UserView))
  | sale (s : SaleRec)
deriving DecidableEq, Repr

/-- The HTTP results the handlers produce.  `ok`/`okList` are the 200
`{success: true, data}` / `{success, count, data}` envelopes, `created`
is the 201 envelope, `badRequest` the 400 `{errors}` body, and the rest
the single-`error`-string responses. -/
inductive HResult where
  | ok (data : Payload)
  | okList (count : Nat) (data : List (ProcRec × Option UserView))
  | created (data : Payload)
  | badRequest (errors : List FieldError)
  | unauthenticated (msg : String)
  | forbidden (msg : String)
  | notFound (msg : String)
  | serverError (msg : String)
deriving DecidableEq, Repr

/-- Pipeline stages of a handler, recorded for the sequencing claims:
`auth` is the `protect` middleware, `authz` an `authorize(...)` middleware,
`validate` the `validationResult` check, `persist` the store interaction. -/
inductive Stage where
  | auth
  | authz
  | validate
  | persist
deriving DecidableEq, Repr

/-- What one request leaves behind: the response, the store state after the
request, and the pipeline stages that executed. -/
structure Outcome where
  resp : HResult
  db : DB
  trace : List Stage
deriving DecidableEq, Repr

/-- Modelled from the spec: `src/middleware/auth.js` (the `protect`
middleware) is not under `src/`.  Per §4.1 it resolves a bearer credential
to a User or fails with `Unauthenticated` (401) before anything else runs;
a request's credential is therefore modelled as `Option User` (`none` =
no valid credential). -/
abbrev Cred : Type := Option User

/-- The 401 outcome `protect` produces (spec §4.1/§6: a single error
string); later stages never run. -/
def unauthOutcome (db : DB) : Outcome :=
  ⟨.unauthenticated "Not authorized", db, [.auth]⟩

/-- Modelled from the spec: `authorize(...roles)` of the missing
`src/middleware/auth.js`.  Per §4.1 it checks the resolved user's role
against the allow-list and fails with `Forbidden` (403) otherwise. -/
def roleAllowed (roles : List String) (u : User) : Bool :=
  roles.contains u.role

/-- Mongoose cast of a body value into the Boolean `isPaid` path: an
actual boolean is kept; an absent value takes the schema default `false`.
(Other shapes would raise a cast error; no claim exercises them and they
are also mapped to the default here.) -/
def castBool : JVal → Bool
  | .jbool b => b
  | _ => false

/-- The stored string for a validated string field (mongoose keeps the
string value). -/
def strOf (v : JVal) : String :=
  (jvalToStr v).getD ""

/-- The record `Procurement.create` persists for a validated body:
`{...req.body, recordedBy: req.user._id, date: req.body.date || new Date()}`
(procurementRoutes.js lines 98–102). -/
def mkProcRec (u : User) (b : ProcBody) (now fid : Nat) : ProcRec where
  id := fid
  produceName := strOf b.produceName
  produceType := strOf b.produceType
  date := if truthy b.date then .fromBody b.date else .now now
  time := strOf b.time
  tonnage := (jvalInt b.tonnage).getD 0
  cost := (jvalNum b.cost).getD 0
  dealerName := strOf b.dealerName
  branch := strOf b.branch
  contact := strOf b.contact
  sellingPrice := (jvalNum b.sellingPrice).getD 0
  recordedBy := u.id
  createdAt := now

/-- The record `CashSale.create` persists for a validated body
(salesRoutes.js lines 84–88). -/
def mkCashRec (u : User) (b : CashBody) (now fid : Nat) : CashSaleRec where
  id := fid
  produceName := strOf b.produceName
  tonnage := (jvalInt b.tonnage).getD 0
  amountPaid := (jvalNum b.amountPaid).getD 0
  buyerName := strOf b.buyerName
  salesAgentName := strOf b.salesAgentName
  date := if truthy b.date then .fromBody b.date else .now now
  time := strOf b.time
  recordedBy := u.id
  createdAt := now
  updatedAt := now

/-- The record `CreditSale.create` persists for a validated body
(salesRoutes.js lines 190–194): the spread passes every body key through,
`recordedBy` and `dispatchDate` are then overridden. -/
def mkCreditRec (u : User) (b : CreditBody) (now fid : Nat) : CreditSaleRec where
  id := fid
  buyerName := strOf b.buyerName
  nationalId := strOf b.nationalId
  location := strOf b.location
  contacts := strOf b.contacts
  amountDue := (jvalNum b.amountDue).getD 0
  salesAgentName := strOf b.salesAgentName
  dueDate := .fromBody b.dueDate
  produceName := strOf b.produceName
  produceType := strOf b.produceType
  tonnage := (jvalInt b.tonnage).getD 0
  dispatchDate := if truthy b.dispatchDate then .fromBody b.dispatchDate else .now now
  isPaid := castBool b.isPaid
  paymentDate := if b.paymentDate = .jundef then none else some (.fromBody b.paymentDate)
  recordedBy := u.id
  createdAt := now
  updatedAt := now

/-- Handler `router.post('/')` of procurementRoutes.js: protect →
authorize('Manager') → validators → create → 201. -/
def postProcurement (cred : Cred) (b : ProcBody) (now fid : Nat) (db : DB) : Outcome :=
  match cred with
  | none => unauthOutcome db
  | some u =>
    if roleAllowed ["Manager"] u then
      let errs := validateProcBody b
      if errs.isEmpty then
        let p := mkProcRec u b now fid
        ⟨.created (.procOne p), { db with procurements := db.procurements ++ [p] },
          [.auth, .authz, .validate, .persist]⟩
      else ⟨.badRequest errs, db, [.auth, .authz, .validate]⟩
    else ⟨.forbidden "Forbidden", db, [.auth, .authz]⟩

/-- Handler `router.get('/')` of procurementRoutes.js: protect → find().populate
('recordedBy', 'name email').sort({createdAt: -1}) → 200 list envelope. -/
def getProcurements (cred : Cred) (db : DB) : Outcome :=
  match cred with
  | none => unauthOutcome db
  | some _ =>
    let l := (sortProcsDesc db.procurements).map (fun p => (p, userView db.users p.recordedBy))
    ⟨.okList l.length l, db, [.auth, .persist]⟩

/-- Handler `router.get('/:id')` of procurementRoutes.js: protect → findById →
404 or 200. -/
def getProcurementById (cred : Cred) (id : Nat) (db : DB) : Outcome :=
  match cred with
  | none => unauthOutcome db
  | some _ =>
    match db.procurements.find? (fun p => p.id = id) with
    | none => ⟨.notFound "Procurement record not found", db, [.auth, .persist]⟩
    | some p => ⟨.ok (.procPop p (userView db.users p.recordedBy)), db, [.auth, .persist]⟩

/-- Handler `router.post('/cash')` of salesRoutes.js: protect →
authorize('Sales Agent', 'Manager') → validators → CashSale.create → 201. -/
def postCashSale (cred : Cred) (b : CashBody) (now fid : Nat) (db : DB) : Outcome :=
  match cred with
  | none => unauthOutcome db
  | some u =>
    if roleAllowed ["Sales Agent", "Manager"] u then
      let errs := validateCashBody b
      if errs.isEmpty then
        let c := mkCashRec u b now fid
        ⟨.created (.sale (.cash c)), { db with sales := db.sales ++ [.cash c] },
          [.auth, .authz, .validate, .persist]⟩
      else ⟨.badRequest errs, db, [.auth, .authz, .validate]⟩
    else ⟨.forbidden "Forbidden", db, [.auth, .authz]⟩

/-- Handler `router.post('/credit')` of salesRoutes.js: protect →
authorize('Sales Agent', 'Manager') → validators → CreditSale.create → 201. -/
def postCreditSale (cred : Cred) (b : CreditBody) (now fid : Nat) (db : DB) : Outcome :=
  match cred with
  | none => unauthOutcome db
  | some u =>
    if roleAllowed ["Sales Agent", "Manager"] u then
      let errs := validateCreditBody b
      if errs.isEmpty then
        let c := mkCreditRec u b now fid
        ⟨.created (.sale (.credit c)), { db with sales := db.sales ++ [.credit c] },
          [.auth, .authz, .validate, .persist]⟩
      else ⟨.badRequest errs, db, [.auth, .authz, .validate]⟩
    else ⟨.forbidden "Forbidden", db, [.auth, .authz]⟩

/-- Handler `router.get('/')` of salesRoutes.js, lines 229–250.  The module imports
only `CashSale` and `CreditSale` from `../models/Sale` (line 11), so the
identifier `Sale` used at `Sale.find(query)` (line 237) is unbound: the
handler body throws a ReferenceError before any store interaction, the
`catch` branch answers 500 `{error: 'Server error'}`, and the `type` query
parameter is never consulted. -/
def getSales (cred : Cred) (_typeq : Option String) (db : DB) : Outcome :=
  match cred with
  | none => unauthOutcome db
  | some _ => ⟨.serverError "Server error", db, [.auth]⟩

/-- Query `CreditSale.findById(id)`: the discriminator restricts the query to
`saleType: 'Credit'`, so a cash sale under that id resolves to nothing. -/
def findCreditSale : List SaleRec → Nat → Option CreditSaleRec
  | [], _ => none
  | .cash _ :: r, id => findCreditSale r id
  | .credit c :: r, id => if c.id = id then some c else findCreditSale r id

/-- The mutation `sale.isPaid = true; sale.paymentDate = new Date();
await sale.save()` applied to the document `findById` returned; with
`timestamps: true` the save also refreshes `updatedAt`. -/
def paidUpdate (c : CreditSaleRec) (now : Nat) : CreditSaleRec :=
  { c with isPaid := true, paymentDate := some (.now now), updatedAt := now }

/-- The sales collection after saving the found document: the first credit
sale bearing the id is replaced, everything else is untouched. -/
def saveCreditPaid (id now : Nat) : List SaleRec → List SaleRec
  | [] => []
  | .cash c :: r => .cash c :: saveCreditPaid id now r
  | .credit c :: r =>
    if c.id = id then .credit (paidUpdate c now) :: r
    else .credit c :: saveCreditPaid id now r

/-- Handler `router.patch('/credit/:id/payment')` of salesRoutes.js, lines 272–292:
protect → CreditSale.findById → 404, or set isPaid/paymentDate, save,
200 with the updated document. -/
def patchCreditPayment (cred : Cred) (id : Nat) (now : Nat) (db : DB) : Outcome :=
  match cred with
  | none => unauthOutcome db
  | some _ =>
    match findCreditSale db.sales id with
    | none => ⟨.notFound "Credit sale not found", db, [.auth, .persist]⟩
    | some c =>
      ⟨.ok (.sale (.credit (paidUpdate c now))),
        { db with sales := saveCreditPaid id now db.sales }, [.auth, .persist]⟩

/-- One inbound request to any of the seven endpoints. -/
inductive Op where
  | postProc (cred : Cred) (b : ProcBody) (fid : Nat)
  | getProcs (cred : Cred)
  | getProcById (cred : Cred) (id : Nat)
  | postCash (cred : Cred) (b : CashBody) (fid : Nat)
  | postCredit (cred : Cred) (b : CreditBody) (fid : Nat)
  | listSales (cred : Cred) (typeq : Option String)
  | payCredit (cred : Cred) (id : Nat)
deriving DecidableEq, Repr

/-- Dispatch a request to its handler at server time `now`. -/
def runOp (op : Op) (now : Nat) (db : DB) : Outcome :=
  match op with
  | .postProc cred b fid => postProcurement cred b now fid db
  | .getProcs cred => getProcurements cred db
  | .getProcById cred id => getProcurementById cred id db
  | .postCash cred b fid => postCashSale cred b now fid db
  | .postCredit cred b fid => postCreditSale cred b now fid db
  | .listSales cred typeq => getSales cred typeq db
  | .payCredit cred id => patchCreditPayment cred id now db

/-- The credential of a request. -/
def Op.cred : Op → Cred
  | .postProc c _ _ => c
  | .getProcs c => c
  | .getProcById c _ => c
  | .postCash c _ _ => c
  | .postCredit c _ _ => c
  | .listSales c _ => c
  | .payCredit c _ => c

theorem findCreditSale_append (l1 l2 : List SaleRec) (id : Nat)
    (h : ∀ c, SaleRec.credit c ∈ l1 → c.id ≠ id) :
    findCreditSale (l1 ++ l2) id = findCreditSale l2 id := by
  induction l1 with
  | nil => rfl
  | cons s r ih =>
    cases s with
    | cash c => simpa [findCreditSale] using ih (fun c hc => h c (List.mem_cons_of_mem _ hc))
    | credit c =>
      have hne : c.id ≠ id := h c (List.mem_cons_self _ _)
      simp [findCreditSale, hne, ih (fun c hc => h c (List.mem_cons_of_mem _ hc))]

theorem saveCreditPaid_append (l1 l2 : List SaleRec) (id now : Nat)
    (h : ∀ c, SaleRec.credit c ∈ l1 → c.id ≠ id) :
    saveCreditPaid id now (l1 ++ l2) = l1 ++ saveCreditPaid id now l2 := by
  induction l1 with
  | nil => rfl
  | cons s r ih =>
    cases s with
    | cash c => simp [saveCreditPaid, ih (fun c hc => h c (List.mem_cons_of_mem _ hc))]
    | credit c =>
      have hne : c.id ≠ id := h c (List.mem_cons_self _ _)
      simp [saveCreditPaid, hne, ih (fun c hc => h c (List.mem_cons_of_mem _ hc))]

theorem saveCreditPaid_frame (id now : Nat) (l : List SaleRec) :
    ∀ s ∈ l, s ∈ saveCreditPaid id now l ∨
      ∃ c, s = SaleRec.credit c ∧ c.id = id ∧
        SaleRec.credit (paidUpdate c now) ∈ saveCreditPaid id now l := by
  induction l with
  | nil => intro s hs; cases hs
  | cons t r ih =>
    intro s hs
    cases t with
    | cash c =>
      rcases List.mem_cons.mp hs with rfl | hs'
      · exact Or.inl (List.mem_cons_self _ _)
      · rcases ih s hs' with hin | ⟨c', rfl, hid, hin⟩
        · exact Or.inl (List.mem_cons_of_mem _ hin)
        · exact Or.inr ⟨c', rfl, hid, List.mem_cons_of_mem _ hin⟩
    | credit c =>
      by_cases hc : c.id = id
      · rcases List.mem_cons.mp hs with rfl | hs'
        · exact Or.inr ⟨c, rfl, hc, by simp [saveCreditPaid, hc]⟩
        · exact Or.inl (by simp [saveCreditPaid, hc, hs'])
      · rcases List.mem_cons.mp hs with rfl | hs'
        · exact Or.inl (by simp [saveCreditPaid, hc])
        · rcases ih s hs' with hin | ⟨c', rfl, hid, hin⟩
          · exact Or.inl (by simp [saveCreditPaid, hc, hin])
          · exact Or.inr ⟨c', rfl, hid, by simp [saveCreditPaid, hc, hin]⟩

theorem saveCreditPaid_length (id now : Nat) (l : List SaleRec) :
    (saveCreditPaid id now l).length = l.length := by
  induction l with
  | nil => rfl
  | cons t r ih =>
    cases t with
    | cash c => simp [saveCreditPaid, ih]
    | credit c =>
      by_cases hc : c.id = id <;> simp [saveCreditPaid, hc, ih]

/-- C1: the claim says an authenticated GET /sales returns a success
envelope with `count` and the (optionally type-filtered) sale records and
does not take the server-error branch when the store is available.  The
code cannot do this: `salesRoutes.js` imports only `CashSale` and
`CreditSale` (line 11), so the `Sale.find(query)` call of the list handler
(line 237) references an unbound identifier, the handler throws before any
store interaction, and the catch branch answers 500 `{error: 'Server
error'}` for every authenticated request, regardless of the `type` query
parameter or the store state.  The store is never reached, hence also
never changed. -/
theorem c1_get_sales_always_server_error (u : User) (tq : Option String) (now : Nat) (db : DB) :
    (runOp (.listSales (some u) tq) now db).resp = .serverError "Server error" ∧
    (runOp (.listSales (some u) tq) now db).db = db ∧
    Stage.persist ∉ (runOp (.listSales (some u) tq) now db).trace := by
  refine ⟨rfl, rfl, ?_⟩
  simp [runOp, getSales]

/-- C2: a credit sale created with `isPaid` omitted persists with
`isPaid = false` and `paymentDate = null`; one PATCH
/sales/credit/{id}/payment on it answers 200 with `isPaid = true` and a
non-null `paymentDate` equal to the server clock of that call (hence
`≤ now`); repeating the call answers 200 again with `isPaid` still true
and the `paymentDate` refreshed to the second call's clock; and an id that
resolves to no credit sale answers 404 `Credit sale not found`. -/
theorem c2_credit_payment_round_trip
    (u : User) (b : CreditBody) (db : DB) (t0 t1 t2 fid : Nat)
    (hrole : roleAllowed ["Sales Agent", "Manager"] u = true)
    (hval : validateCreditBody b = [])
    (hIsPaid : b.isPaid = .jundef)
    (hPayDate : b.paymentDate = .jundef)
    (hfresh : ∀ c, SaleRec.credit c ∈ db.sales → c.id ≠ fid) :
    (runOp (.postCredit (some u) b fid) t0 db).resp
      = .created (.sale (.credit (mkCreditRec u b t0 fid))) ∧
    (mkCreditRec u b t0 fid).isPaid = false ∧
    (mkCreditRec u b t0 fid).paymentDate = none ∧
    (runOp (.payCredit (some u) fid) t1 (runOp (.postCredit (some u) b fid) t0 db).db).resp
      = .ok (.sale (.credit (paidUpdate (mkCreditRec u b t0 fid) t1))) ∧
    (paidUpdate (mkCreditRec u b t0 fid) t1).isPaid = true ∧
    (paidUpdate (mkCreditRec u b t0 fid) t1).paymentDate = some (.now t1) ∧
    (runOp (.payCredit (some u) fid) t2
        (runOp (.payCredit (some u) fid) t1 (runOp (.postCredit (some u) b fid) t0 db).db).db).resp
      = .ok (.sale (.credit (paidUpdate (paidUpdate (mkCreditRec u b t0 fid) t1) t2))) ∧
    (paidUpdate (paidUpdate (mkCreditRec u b t0 fid) t1) t2).isPaid = true ∧
    (paidUpdate (paidUpdate (mkCreditRec u b t0 fid) t1) t2).paymentDate = some (.now t2) ∧
    (∀ (db2 : DB) (id : Nat), findCreditSale db2.sales id = none →
      (runOp (.payCredit (some u) id) t1 db2).resp = .notFound "Credit sale not found") := by
  have hid0 : (mkCreditRec u b t0 fid).id = fid := rfl
  have e0 : runOp (.postCredit (some u) b fid) t0 db =
      ⟨.created (.sale (.credit (mkCreditRec u b t0 fid))),
        { db with sales := db.sales ++ [.credit (mkCreditRec u b t0 fid)] },
        [.auth, .authz, .validate, .persist]⟩ := by
    simp [runOp, postCreditSale, hrole, hval]
  have hfind1 : findCreditSale (db.sales ++ [.credit (mkCreditRec u b t0 fid)]) fid
      = some (mkCreditRec u b t0 fid) := by
    rw [findCreditSale_append _ _ _ hfresh]
    simp [findCreditSale, hid0]
  have hsave1 : saveCreditPaid fid t1 (db.sales ++ [.credit (mkCreditRec u b t0 fid)])
      = db.sales ++ [.credit (paidUpdate (mkCreditRec u b t0 fid) t1)] := by
    rw [saveCreditPaid_append _ _ _ _ hfresh]
    simp [saveCreditPaid, hid0]
  have e1 : runOp (.payCredit (some u) fid) t1 (runOp (.postCredit (some u) b fid) t0 db).db =
      ⟨.ok (.sale (.credit (paidUpdate (mkCreditRec u b t0 fid) t1))),
        { db with sales := db.sales ++ [.credit (paidUpdate (mkCreditRec u b t0 fid) t1)] },
        [.auth, .persist]⟩ := by
    rw [e0]
    simp [runOp, patchCreditPayment, hfind1, hsave1]
  have hid1 : (paidUpdate (mkCreditRec u b t0 fid) t1).id = fid := rfl
  have hfind2 : findCreditSale (db.sales ++ [.credit (paidUpdate (mkCreditRec u b t0 fid) t1)]) fid
      = some (paidUpdate (mkCreditRec u b t0 fid) t1) := by
    rw [findCreditSale_append _ _ _ hfresh]
    simp [findCreditSale, hid1]
  refine ⟨by rw [e0], by simp [mkCreditRec, hIsPaid, castBool], by simp [mkCreditRec, hPayDate],
    by rw [e1], rfl, rfl, ?_, rfl, rfl, ?_⟩
  · rw [e1]
    simp [runOp, patchCreditPayment, hfind2]
  · intro db2 id h
    simp [runOp, patchCreditPayment, h]

/-- C3: a procurement creation whose tonnage denotes no integer or an
integer below 100 is answered with a 400 whose `errors` array names the
`tonnage` field; the store state is untouched and the persist stage (the
`Procurement.create` call) never runs. -/
theorem c3_procurement_tonnage_validation
    (u : User) (b : ProcBody) (db : DB) (now fid : Nat)
    (hrole : u.role = "Manager")
    (hbad : jvalInt b.tonnage = none ∨ ∃ n, jvalInt b.tonnage = some n ∧ n < 100) :
    (∃ errs, (runOp (.postProc (some u) b fid) now db).resp = .badRequest errs ∧
      FieldError.mk "tonnage" "Tonnage must be at least 100 kg" ∈ errs) ∧
    (runOp (.postProc (some u) b fid) now db).db = db ∧
    Stage.persist ∉ (runOp (.postProc (some u) b fid) now db).trace := by
  have hfail : isIntMin 100 b.tonnage = false := by
    rcases hbad with h | ⟨n, h, hlt⟩ <;> simp [isIntMin, h]
    omega
  have hmem : FieldError.mk "tonnage" "Tonnage must be at least 100 kg" ∈ validateProcBody b := by
    simp [validateProcBody, check, hfail]
  have hne : (validateProcBody b).isEmpty = false := by
    cases hv : validateProcBody b with
    | nil => rw [hv] at hmem; cases hmem
    | cons a l => simp
  have hrole' : roleAllowed ["Manager"] u = true := by simp [roleAllowed, hrole]
  refine ⟨⟨validateProcBody b, ?_, hmem⟩, ?_, ?_⟩ <;>
    simp [runOp, postProcurement, hrole', hne]

/-- C4: a cash-sale creation whose `amountPaid` is a number below 10000,
and a credit-sale creation whose `amountDue` is a number below 10000, are
each answered with a 400 naming the offending field; the store state is
untouched and the persist stage (the `create` call) never runs. -/
theorem c4_sale_amount_minimum_validation :
    (∀ (u : User) (b : CashBody) (db : DB) (now fid : Nat) (q : Rat),
      roleAllowed ["Sales Agent", "Manager"] u = true →
      jvalNum b.amountPaid = some q → q < 10000 →
      (∃ errs, (runOp (.postCash (some u) b fid) now db).resp = .badRequest errs ∧
        FieldError.mk "amountPaid" "Amount paid must be at least 10,000 UgX" ∈ errs) ∧
      (runOp (.postCash (some u) b fid) now db).db = db ∧
      Stage.persist ∉ (runOp (.postCash (some u) b fid) now db).trace) ∧
    (∀ (u : User) (b : CreditBody) (db : DB) (now fid : Nat) (q : Rat),
      roleAllowed ["Sales Agent", "Manager"] u = true →
      jvalNum b.amountDue = some q → q < 10000 →
      (∃ errs, (runOp (.postCredit (some u) b fid) now db).resp = .badRequest errs ∧
        FieldError.mk "amountDue" "Amount due must be at least 10,000 UgX" ∈ errs) ∧
      (runOp (.postCredit (some u) b fid) now db).db = db ∧
      Stage.persist ∉ (runOp (.postCredit (some u) b fid) now db).trace) := by
  constructor
  · intro u b db now fid q hrole hq hlt
    have hfail : isFloatMin 10000 b.amountPaid = false := by
      simp [isFloatMin, hq]
      exact hlt
    have hmem : FieldError.mk "amountPaid" "Amount paid must be at least 10,000 UgX"
        ∈ validateCashBody b := by
      simp [validateCashBody, check, hfail]
    have hne : (validateCashBody b).isEmpty = false := by
      cases hv : validateCashBody b with
      | nil => rw [hv] at hmem; cases hmem
      | cons a l => simp
    refine ⟨⟨validateCashBody b, ?_, hmem⟩, ?_, ?_⟩ <;>
      simp [runOp, postCashSale, hrole, hne]
  · intro u b db now fid q hrole hq hlt
    have hfail : isFloatMin 10000 b.amountDue = false := by
      simp [isFloatMin, hq]
      exact hlt
    have hmem : FieldError.mk "amountDue" "Amount due must be at least 10,000 UgX"
        ∈ validateCreditBody b := by
      simp [validateCreditBody, check, hfail]
    have hne : (validateCreditBody b).isEmpty = false := by
      cases hv : validateCreditBody b with
      | nil => rw [hv] at hmem; cases hmem
      | cons a l => simp
    refine ⟨⟨validateCreditBody b, ?_, hmem⟩, ?_, ?_⟩ <;>
      simp [runOp, postCreditSale, hrole, hne]

/-- C5: requests without a valid credential are answered `Unauthenticated`
(401) with nothing else having run — the store untouched and the trace
showing only the auth stage, in particular no validation; and every
handler is the strict sequential pipeline auth → authz → validate →
persist: the executed stages always form an order-preserving sublist of
that pipeline, a 401 stops after auth, a 403 stops after authz, and a
validation failure stops before persist with the store untouched.
(`protect`/`authorize` of the absent `src/middleware/auth.js` are
modelled from spec §4.1.) -/
theorem c5_auth_first_strict_pipeline :
    (∀ (op : Op) (now : Nat) (db : DB), op.cred = none →
      (runOp op now db).resp = .unauthenticated "Not authorized" ∧
      (runOp op now db).db = db ∧
      (runOp op now db).trace = [Stage.auth]) ∧
    (∀ (op : Op) (now : Nat) (db : DB),
      List.Sublist (runOp op now db).trace
        [Stage.auth, Stage.authz, Stage.validate, Stage.persist]) ∧
    (∀ (op : Op) (now : Nat) (db : DB) (m : String),
      ((runOp op now db).resp = .unauthenticated m → (runOp op now db).trace = [Stage.auth]) ∧
      ((runOp op now db).resp = .forbidden m →
        (runOp op now db).trace = [Stage.auth, Stage.authz])) ∧
    (∀ (op : Op) (now : Nat) (db : DB) (errs : List FieldError),
      (runOp op now db).resp = .badRequest errs →
        Stage.persist ∉ (runOp op now db).trace ∧ (runOp op now db).db = db) := by
  have shape : ∀ (op : Op) (now : Nat) (db : DB),
      (runOp op now db).trace = [Stage.auth] ∨
      (runOp op now db).trace = [Stage.auth, Stage.authz] ∨
      (runOp op now db).trace = [Stage.auth, Stage.authz, Stage.validate] ∨
      (runOp op now db).trace = [Stage.auth, Stage.authz, Stage.validate, Stage.persist] ∨
      (runOp op now db).trace = [Stage.auth, Stage.persist] := by
    intro op now db
    cases op with
    | postProc c b fid =>
      cases c with
      | none => simp [runOp, postProcurement, unauthOutcome]
      | some u =>
        by_cases hr : roleAllowed ["Manager"] u <;>
          by_cases he : (validateProcBody b).isEmpty <;>
          simp [runOp, postProcurement, hr, he]
    | getProcs c =>
      cases c with
      | none => simp [runOp, getProcurements, unauthOutcome]
      | some u => simp [runOp, getProcurements]
    | getProcById c id =>
      cases c with
      | none => simp [runOp, getProcurementById, unauthOutcome]
      | some u =>
        cases hf : db.procurements.find? (fun p => p.id = id) <;>
          simp [runOp, getProcurementById, hf]
    | postCash c b fid =>
      cases c with
      | none => simp [runOp, postCashSale, unauthOutcome]
      | some u =>
        by_cases hr : roleAllowed ["Sales Agent", "Manager"] u <;>
          by_cases he : (validateCashBody b).isEmpty <;>
          simp [runOp, postCashSale, hr, he]
    | postCredit c b fid =>
      cases c with
      | none => simp [runOp, postCreditSale, unauthOutcome]
      | some u =>
        by_cases hr : roleAllowed ["Sales Agent", "Manager"] u <;>
          by_cases he : (validateCreditBody b).isEmpty <;>
          simp [runOp, postCreditSale, hr, he]
    | listSales c tq =>
      cases c with
      | none => simp [runOp, getSales, unauthOutcome]
      | some u => simp [runOp, getSales]
    | payCredit c id =>
      cases c with
      | none => simp [runOp, patchCreditPayment, unauthOutcome]
      | some u =>
        cases hf : findCreditSale db.sales id <;>
          simp [runOp, patchCreditPayment, hf]
  refine ⟨?_, ?_, ?_, ?_⟩
  · intro op now db h
    cases op <;> simp [Op.cred] at h <;> subst h <;>
      simp [runOp, postProcurement, getProcurements, getProcurementById, postCashSale,
        postCreditSale, getSales, patchCreditPayment, unauthOutcome]
  · intro op now db
    rcases shape op now db with h | h | h | h | h <;> rw [h] <;> decide
  · intro op now db m
    cases op with
    | postProc c b fid =>
      cases c with
      | none => simp [runOp, postProcurement, unauthOutcome]
      | some u =>
        by_cases hr : roleAllowed ["Manager"] u <;>
          by_cases he : (validateProcBody b).isEmpty <;>
          simp [runOp, postProcurement, hr, he]
    | getProcs c =>
      cases c with
      | none => simp [runOp, getProcurements, unauthOutcome]
      | some u => simp [runOp, getProcurements]
    | getProcById c id =>
      cases c with
      | none => simp [runOp, getProcurementById, unauthOutcome]
      | some u =>
        cases hf : db.procurements.find? (fun p => p.id = id) <;>
          simp [runOp, getProcurementById, hf]
    | postCash c b fid =>
      cases c with
      | none => simp [runOp, postCashSale, unauthOutcome]
      | some u =>
        by_cases hr : roleAllowed ["Sales Agent", "Manager"] u <;>
          by_cases he : (validateCashBody b).isEmpty <;>
          simp [runOp, postCashSale, hr, he]
    | postCredit c b fid =>
      cases c with
      | none => simp [runOp, postCreditSale, unauthOutcome]
      | some u =>
        by_cases hr : roleAllowed ["Sales Agent", "Manager"] u <;>
          by_cases he : (validateCreditBody b).isEmpty <;>
          simp [runOp, postCreditSale, hr, he]
    | listSales c tq =>
      cases c with
      | none => simp [runOp, getSales, unauthOutcome]
      | some u => simp [runOp, getSales]
    | payCredit c id =>
      cases c with
      | none => simp [runOp, patchCreditPayment, unauthOutcome]
      | some u =>
        cases hf : findCreditSale db.sales id <;>
          simp [runOp, patchCreditPayment, hf]
  · intro op now db errs
    cases op with
    | postProc c b fid =>
      cases c with
      | none => simp [runOp, postProcurement, unauthOutcome]
      | some u =>
        by_cases hr : roleAllowed ["Manager"] u <;>
          by_cases he : (validateProcBody b).isEmpty <;>
          simp [runOp, postProcurement, hr, he]
    | getProcs c =>
      cases c with
      | none => simp [runOp, getProcurements, unauthOutcome]
      | some u => simp [runOp, getProcurements]
    | getProcById c id =>
      cases c with
      | none => simp [runOp, getProcurementById, unauthOutcome]
      | some u =>
        cases hf : db.procurements.find? (fun p => p.id = id) <;>
          simp [runOp, getProcurementById, hf]
    | postCash c b fid =>
      cases c with
      | none => simp [runOp, postCashSale, unauthOutcome]
      | some u =>
        by_cases hr : roleAllowed ["Sales Agent", "Manager"] u <;>
          by_cases he : (validateCashBody b).isEmpty <;>
          simp [runOp, postCashSale, hr, he]
    | postCredit c b fid =>
      cases c with
      | none => simp [runOp, postCreditSale, unauthOutcome]
      | some u =>
        by_cases hr : roleAllowed ["Sales Agent", "Manager"] u <;>
          by_cases he : (validateCreditBody b).isEmpty <;>
          simp [runOp, postCreditSale, hr, he]
    | listSales c tq =>
      cases c with
      | none => simp [runOp, getSales, unauthOutcome]
      | some u => simp [runOp, getSales]
    | payCredit c id =>
      cases c with
      | none => simp [runOp, patchCreditPayment, unauthOutcome]
      | some u =>
        cases hf : findCreditSale db.sales id <;>
          simp [runOp, patchCreditPayment, hf]

/-- A concrete manager for witnesses. -/
def demoManager : User := ⟨3, "Bob Manager", "bob@kgl.test", "Manager"⟩

/-- A concrete sales agent for witnesses. -/
def demoAgent : User := ⟨7, "Alice Agent", "alice@kgl.test", "Sales Agent"⟩

/-- The empty store. -/
def emptyDB : DB := ⟨[], [], []⟩

/-- The example POST /procurement body of spec §8. -/
def c6Body : ProcBody where
  produceName := .jstr "Maize"
  produceType := .jstr "Cereal"
  time := .jstr "14:30"
  tonnage := .jnum 150
  cost := .jnum 500000
  dealerName := .jstr "John Doe"
  branch := .jstr "Maganjo"
  contact := .jstr "0771234567"
  sellingPrice := .jnum 2000

/-- C6: a Sales Agent attempting POST /procurement is rejected 403
Forbidden with nothing persisted; a Manager posting the spec's example
body (Maize/Cereal/14:30/150/500000/John Doe/Maganjo/0771234567/2000)
gets 201 with `data.branch = "Maganjo"` and `data.tonnage = 150`.
(`authorize('Manager')` of the absent `src/middleware/auth.js` is
modelled from spec §4.1.) -/
theorem c6_procurement_role_gate
    (u : User) (b : ProcBody) (db : DB) (now fid : Nat) :
    (u.role = "Sales Agent" →
      (runOp (.postProc (some u) b fid) now db).resp = .forbidden "Forbidden" ∧
      (runOp (.postProc (some u) b fid) now db).db = db) ∧
    (u.role = "Manager" →
      (runOp (.postProc (some u) c6Body fid) now db).resp
        = .created (.procOne (mkProcRec u c6Body now fid)) ∧
      (mkProcRec u c6Body now fid).branch = "Maganjo" ∧
      (mkProcRec u c6Body now fid).tonnage = 150) := by
  constructor
  · intro hrole
    have hr : roleAllowed ["Manager"] u = false := by simp [roleAllowed, hrole]
    constructor <;> simp [runOp, postProcurement, hr]
  · intro hrole
    have hr : roleAllowed ["Manager"] u = true := by simp [roleAllowed, hrole]
    have hv : (validateProcBody c6Body).isEmpty = true := by decide
    refine ⟨?_, rfl, rfl⟩
    simp [runOp, postProcurement, hr, hv]

/-- Witness for C6 at the concrete users and the example body. -/
theorem c6_procurement_role_gate_witness :
    (runOp (.postProc (some demoAgent) c6Body 1) 0 emptyDB).resp = .forbidden "Forbidden" ∧
    (runOp (.postProc (some demoManager) c6Body 1) 0 emptyDB).resp
      = .created (.procOne (mkProcRec demoManager c6Body 0 1)) ∧
    (mkProcRec demoManager c6Body 0 1).branch = "Maganjo" ∧
    (mkProcRec demoManager c6Body 0 1).tonnage = 150 :=
  ⟨((c6_procurement_role_gate demoAgent c6Body emptyDB 0 1).1 rfl).1,
    (c6_procurement_role_gate demoManager c6Body emptyDB 0 1).2 rfl⟩

/-- C7: when field validation fails on a creation endpoint, the response
carries the whole collected violation list of the request — the handler
returns `errors.array()` of the one `validationResult`, and every failing
check of every chain contributes its own `{field, message}` entry (listed
below check by check for all three endpoints) — and each element of the
errors array is exactly a field/message pair. -/
theorem c7_validation_errors_collected :
    (∀ (u : User) (b : ProcBody) (db : DB) (now fid : Nat),
      roleAllowed ["Manager"] u = true → validateProcBody b ≠ [] →
      (runOp (.postProc (some u) b fid) now db).resp = .badRequest (validateProcBody b)) ∧
    (∀ (u : User) (b : CashBody) (db : DB) (now fid : Nat),
      roleAllowed ["Sales Agent", "Manager"] u = true → validateCashBody b ≠ [] →
      (runOp (.postCash (some u) b fid) now db).resp = .badRequest (validateCashBody b)) ∧
    (∀ (u : User) (b : CreditBody) (db : DB) (now fid : Nat),
      roleAllowed ["Sales Agent", "Manager"] u = true → validateCreditBody b ≠ [] →
      (runOp (.postCredit (some u) b fid) now db).resp = .badRequest (validateCreditBody b)) ∧
    (∀ (b : ProcBody) (e : FieldError), e ∈ validateProcBody b → e = ⟨e.field, e.message⟩) ∧
    (∀ b : ProcBody,
      (matchesPat alnumSpaceStr b.produceName = false →
        FieldError.mk "produceName" "Produce name must be alphanumeric" ∈ validateProcBody b) ∧
      (lenAtLeast 2 b.produceType = false →
        FieldError.mk "produceType" "Produce type must be at least 2 characters" ∈ validateProcBody b) ∧
      (matchesPat alphaSpaceStr b.produceType = false →
        FieldError.mk "produceType" "Produce type must contain only letters" ∈ validateProcBody b) ∧
      (matchesPat timeStr b.time = false →
        FieldError.mk "time" "Please enter valid time (HH:MM)" ∈ validateProcBody b) ∧
      (isIntMin 100 b.tonnage = false →
        FieldError.mk "tonnage" "Tonnage must be at least 100 kg" ∈ validateProcBody b) ∧
      (isFloatMin 10000 b.cost = false →
        FieldError.mk "cost" "Cost must be at least 10,000 UgX" ∈ validateProcBody b) ∧
      (lenAtLeast 2 b.dealerName = false →
        FieldError.mk "dealerName" "Dealer name must be at least 2 characters" ∈ validateProcBody b) ∧
      (matchesPat alnumSpaceStr b.dealerName = false →
        FieldError.mk "dealerName" "Dealer name must be alphanumeric" ∈ validateProcBody b) ∧
      (isInList ["Maganjo", "Matugga"] b.branch = false →
        FieldError.mk "branch" "Branch must be Maganjo or Matugga" ∈ validateProcBody b) ∧
      (matchesPat phoneStr b.contact = false →
        FieldError.mk "contact" "Please enter a valid phone number" ∈ validateProcBody b) ∧
      (isFloatMin 1000 b.sellingPrice = false →
        FieldError.mk "sellingPrice" "Selling price must be at least 1,000 UgX" ∈ validateProcBody b)) ∧
    (∀ b : CashBody,
      (jvalNotEmpty b.produceName = false →
        FieldError.mk "produceName" "Produce name is required" ∈ validateCashBody b) ∧
      (isIntMin 1 b.tonnage = false →
        FieldError.mk "tonnage" "Tonnage must be at least 1 kg" ∈ validateCashBody b) ∧
      (isFloatMin 10000 b.amountPaid = false →
        FieldError.mk "amountPaid" "Amount paid must be at least 10,000 UgX" ∈ validateCashBody b) ∧
      (lenAtLeast 2 b.buyerName = false →
        FieldError.mk "buyerName" "Buyer name must be at least 2 characters" ∈ validateCashBody b) ∧
      (matchesPat alnumSpaceStr b.buyerName = false →
        FieldError.mk "buyerName" "Buyer name must be alphanumeric" ∈ validateCashBody b) ∧
      (lenAtLeast 2 b.salesAgentName = false →
        FieldError.mk "salesAgentName" "Sales agent name must be at least 2 characters" ∈ validateCashBody b) ∧
      (matchesPat alnumSpaceStr b.salesAgentName = false →
        FieldError.mk "salesAgentName" "Sales agent name must be alphanumeric" ∈ validateCashBody b) ∧
      (matchesPat timeStr b.time = false →
        FieldError.mk "time" "Please enter valid time (HH:MM)" ∈ validateCashBody b)) ∧
    (∀ b : CreditBody,
      (lenAtLeast 2 b.buyerName = false →
        FieldError.mk "buyerName" "Buyer name must be at least 2 characters" ∈ validateCreditBody b) ∧
      (matchesPat alnumSpaceStr b.buyerName = false →
        FieldError.mk "buyerName" "Buyer name must be alphanumeric" ∈ validateCreditBody b) ∧
      (matchesPat ninStr b.nationalId = false →
        FieldError.mk "nationalId" "Please enter a valid NIN" ∈ validateCreditBody b) ∧
      (lenAtLeast 2 b.location = false →
        FieldError.mk "location" "Location must be at least 2 characters" ∈ validateCreditBody b) ∧
      (matchesPat alnumSpaceStr b.location = false →
        FieldError.mk "location" "Location must be alphanumeric" ∈ validateCreditBody b) ∧
      (matchesPat phoneStr b.contacts = false →
        FieldError.mk "contacts" "Please enter a valid phone number" ∈ validateCreditBody b) ∧
      (isFloatMin 10000 b.amountDue = false →
        FieldError.mk "amountDue" "Amount due must be at least 10,000 UgX" ∈ validateCreditBody b) ∧
      (lenAtLeast 2 b.salesAgentName = false →
        FieldError.mk "salesAgentName" "Sales agent name must be at least 2 characters" ∈ validateCreditBody b) ∧
      (matchesPat alnumSpaceStr b.salesAgentName = false →
        FieldError.mk "salesAgentName" "Sales agent name must be alphanumeric" ∈ validateCreditBody b) ∧
      (matchesPat iso8601Str b.dueDate = false →
        FieldError.mk "dueDate" "Please enter a valid due date" ∈ validateCreditBody b) ∧
      (jvalNotEmpty b.produceName = false →
        FieldError.mk "produceName" "Produce name is required" ∈ validateCreditBody b) ∧
      (jvalNotEmpty b.produceType = false →
        FieldError.mk "produceType" "Produce type is required" ∈ validateCreditBody b) ∧
      (isIntMin 1 b.tonnage = false →
        FieldError.mk "tonnage" "Tonnage must be at least 1 kg" ∈ validateCreditBody b)) := by
  refine ⟨?_, ?_, ?_, fun b e _ => rfl, ?_, ?_, ?_⟩
  · intro u b db now fid hrole hne
    have he : (validateProcBody b).isEmpty = false := by
      cases hv : validateProcBody b with
      | nil => exact absurd hv hne
      | cons a l => simp
    simp [runOp, postProcurement, hrole, he]
  · intro u b db now fid hrole hne
    have he : (validateCashBody b).isEmpty = false := by
      cases hv : validateCashBody b with
      | nil => exact absurd hv hne
      | cons a l => simp
    simp [runOp, postCashSale, hrole, he]
  · intro u b db now fid hrole hne
    have he : (validateCreditBody b).isEmpty = false := by
      cases hv : validateCreditBody b with
      | nil => exact absurd hv hne
      | cons a l => simp
    simp [runOp, postCreditSale, hrole, he]
  · intro b
    refine ⟨?_, ?_, ?_, ?_, ?_, ?_, ?_, ?_, ?_, ?_, ?_⟩ <;>
      (intro h; simp [validateProcBody, check, h])
  · intro b
    refine ⟨?_, ?_, ?_, ?_, ?_, ?_, ?_, ?_⟩ <;>
      (intro h; simp [validateCashBody, check, h])
  · intro b
    refine ⟨?_, ?_, ?_, ?_, ?_, ?_, ?_, ?_, ?_, ?_, ?_, ?_, ?_⟩ <;>
      (intro h; simp [validateCreditBody, check, h])

/-- A concrete stored credit sale for counterexamples and witnesses. -/
def demoCreditSale : CreditSaleRec where
  id := 0
  buyerName := "John Doe"
  nationalId := "CM123456789"
  location := "Kampala"
  contacts := "0771234567"
  amountDue := 20000
  salesAgentName := "Alice Agent"
  dueDate := .fromBody (.jstr "2025-01-01")
  produceName := "Maize"
  produceType := "Cereal"
  tonnage := 5
  dispatchDate := .now 0
  isPaid := false
  paymentDate := none
  recordedBy := 7
  createdAt := 0
  updatedAt := 0

/-- C8 counterexample: the claim says every field other than
`CreditSale.isPaid` and `CreditSale.paymentDate` is unchanged by every
operation.  The `Sale` base schema sets `timestamps: true`, so the
`sale.save()` of the payment handler also refreshes the engine-managed
`updatedAt` field: patching the demo credit sale (stored with
`updatedAt = 0`) at server time 5 leaves a record whose `updatedAt` is 5,
a changed field that is neither `isPaid` nor `paymentDate`. -/
theorem c8_counterexample :
    ((runOp (.payCredit (some demoAgent) 0) 5 ⟨[], [.credit demoCreditSale], []⟩).db).sales
      = [.credit { demoCreditSale with
          isPaid := true, paymentDate := some (.now 5), updatedAt := 5 }] ∧
    demoCreditSale.updatedAt = 0 ∧
    ¬ ({ demoCreditSale with
          isPaid := true, paymentDate := some (.now 5), updatedAt := 5 } : CreditSaleRec).updatedAt
        = demoCreditSale.updatedAt := by
  refine ⟨rfl, rfl, by decide⟩

/-- C8 amended: marking a credit sale paid is the only mutation path, and
it changes only the `isPaid`, `paymentDate` and timestamps-managed
`updatedAt` fields of the targeted record (`paidUpdate` keeps every other
field); every operation preserves the user collection, never deletes a
record (collection lengths never shrink, every procurement survives), and
every stored sale either survives unchanged or — only under the payment
operation, and only when it is the targeted credit sale — survives as its
`paidUpdate`. -/
theorem c8_payment_only_mutation_frame (op : Op) (now : Nat) (db : DB) :
    (runOp op now db).db.users = db.users ∧
    db.procurements.length ≤ (runOp op now db).db.procurements.length ∧
    db.sales.length ≤ (runOp op now db).db.sales.length ∧
    (∀ p ∈ db.procurements, p ∈ (runOp op now db).db.procurements) ∧
    (∀ s ∈ db.sales, s ∈ (runOp op now db).db.sales ∨
      ∃ cred id c, op = .payCredit cred id ∧ s = SaleRec.credit c ∧ c.id = id ∧
        SaleRec.credit (paidUpdate c now) ∈ (runOp op now db).db.sales) := by
  have hcases : (runOp op now db).db = db ∨
      (∃ p, (runOp op now db).db = { db with procurements := db.procurements ++ [p] }) ∨
      (∃ s, (runOp op now db).db = { db with sales := db.sales ++ [s] }) ∨
      (∃ cred id, op = .payCredit cred id ∧
        (runOp op now db).db = { db with sales := saveCreditPaid id now db.sales }) := by
    cases op with
    | postProc c b fid =>
      cases c with
      | none => exact Or.inl rfl
      | some u =>
        by_cases hr : roleAllowed ["Manager"] u
        · by_cases he : (validateProcBody b).isEmpty
          · exact Or.inr (Or.inl ⟨mkProcRec u b now fid, by simp [runOp, postProcurement, hr, he]⟩)
          · exact Or.inl (by simp [runOp, postProcurement, hr, he])
        · exact Or.inl (by simp [runOp, postProcurement, hr])
    | getProcs c =>
      cases c with
      | none => exact Or.inl rfl
      | some u => exact Or.inl rfl
    | getProcById c id =>
      cases c with
      | none => exact Or.inl rfl
      | some u =>
        cases hf : db.procurements.find? (fun p => p.id = id) <;>
          exact Or.inl (by simp [runOp, getProcurementById, hf])
    | postCash c b fid =>
      cases c with
      | none => exact Or.inl rfl
      | some u =>
        by_cases hr : roleAllowed ["Sales Agent", "Manager"] u
        · by_cases he : (validateCashBody b).isEmpty
          · exact Or.inr (Or.inr (Or.inl ⟨.cash (mkCashRec u b now fid),
              by simp [runOp, postCashSale, hr, he]⟩))
          · exact Or.inl (by simp [runOp, postCashSale, hr, he])
        · exact Or.inl (by simp [runOp, postCashSale, hr])
    | postCredit c b fid =>
      cases c with
      | none => exact Or.inl rfl
      | some u =>
        by_cases hr : roleAllowed ["Sales Agent", "Manager"] u
        · by_cases he : (validateCreditBody b).isEmpty
          · exact Or.inr (Or.inr (Or.inl ⟨.credit (mkCreditRec u b now fid),
              by simp [runOp, postCreditSale, hr, he]⟩))
          · exact Or.inl (by simp [runOp, postCreditSale, hr, he])
        · exact Or.inl (by simp [runOp, postCreditSale, hr])
    | listSales c tq =>
      cases c with
      | none => exact Or.inl rfl
      | some u => exact Or.inl rfl
    | payCredit c id =>
      cases c with
      | none => exact Or.inl rfl
      | some u =>
        cases hf : findCreditSale db.sales id with
        | none => exact Or.inl (by simp [runOp, patchCreditPayment, hf])
        | some cc =>
          exact Or.inr (Or.inr (Or.inr ⟨some u, id, rfl,
            by simp [runOp, patchCreditPayment, hf]⟩))
  rcases hcases with h | ⟨p, h⟩ | ⟨s, h⟩ | ⟨cred, id, hop, h⟩ <;> rw [h]
  · exact ⟨rfl, le_refl _, le_refl _, fun p hp => hp, fun s hs => Or.inl hs⟩
  · refine ⟨rfl, by simp, le_refl _, ?_, fun s hs => Or.inl hs⟩
    intro q hq
    exact List.mem_append_left _ hq
  · refine ⟨rfl, le_refl _, by simp, fun p hp => hp, ?_⟩
    intro t ht
    exact Or.inl (List.mem_append_left _ ht)
  · refine ⟨rfl, le_refl _, by simp [saveCreditPaid_length], fun p hp => hp, ?_⟩
    intro t ht
    rcases saveCreditPaid_frame id now db.sales t ht with hin | ⟨c, rfl, hid, hin⟩
    · exact Or.inl hin
    · exact Or.inr ⟨cred, id, c, hop, rfl, hid, hin⟩

/-- Witness for C8 (amended) at a concrete payment request. -/
theorem c8_payment_only_mutation_frame_witness :
    (runOp (.payCredit (some demoAgent) 0) 5 ⟨[], [.credit demoCreditSale], []⟩).db.users = [] ∧
    (SaleRec.credit demoCreditSale
        ∈ (runOp (.payCredit (some demoAgent) 0) 5 ⟨[], [.credit demoCreditSale], []⟩).db.sales ∨
      ∃ cred id c, (Op.payCredit (some demoAgent) 0) = .payCredit cred id ∧
        SaleRec.credit demoCreditSale = SaleRec.credit c ∧ c.id = id ∧
        SaleRec.credit (paidUpdate c 5)
          ∈ (runOp (.payCredit (some demoAgent) 0) 5 ⟨[], [.credit demoCreditSale], []⟩).db.sales) :=
  ⟨(c8_payment_only_mutation_frame (.payCredit (some demoAgent) 0) 5
      ⟨[], [.credit demoCreditSale], []⟩).1,
    (c8_payment_only_mutation_frame (.payCredit (some demoAgent) 0) 5
      ⟨[], [.credit demoCreditSale], []⟩).2.2.2.2 (.credit demoCreditSale) (by simp)⟩

/-- C9: every successful creation on the three POST endpoints persists a
record whose `recordedBy` is the authenticated requester's id — the
handlers spread the body first and then override `recordedBy` with
`req.user._id`, so a client-supplied `recordedBy` (a free field of each
body) never survives. -/
theorem c9_recorded_by_is_requester :
    (∀ (u : User) (b : ProcBody) (db : DB) (now fid : Nat) (p : ProcRec),
      (runOp (.postProc (some u) b fid) now db).resp = .created (.procOne p) →
      p.recordedBy = u.id) ∧
    (∀ (u : User) (b : CashBody) (db : DB) (now fid : Nat) (s : CashSaleRec),
      (runOp (.postCash (some u) b fid) now db).resp = .created (.sale (.cash s)) →
      s.recordedBy = u.id) ∧
    (∀ (u : User) (b : CreditBody) (db : DB) (now fid : Nat) (s : CreditSaleRec),
      (runOp (.postCredit (some u) b fid) now db).resp = .created (.sale (.credit s)) →
      s.recordedBy = u.id) := by
  refine ⟨?_, ?_, ?_⟩
  · intro u b db now fid p h
    by_cases hr : roleAllowed ["Manager"] u
    · by_cases he : (validateProcBody b).isEmpty
      · simp [runOp, postProcurement, hr, he] at h
        rw [← h]
        rfl
      · simp [runOp, postProcurement, hr, he] at h
    · simp [runOp, postProcurement, hr] at h
  · intro u b db now fid s h
    by_cases hr : roleAllowed ["Sales Agent", "Manager"] u
    · by_cases he : (validateCashBody b).isEmpty
      · simp [runOp, postCashSale, hr, he] at h
        rw [← h]
        rfl
      · simp [runOp, postCashSale, hr, he] at h
    · simp [runOp, postCashSale, hr] at h
  · intro u b db now fid s h
    by_cases hr : roleAllowed ["Sales Agent", "Manager"] u
    · by_cases he : (validateCreditBody b).isEmpty
      · simp [runOp, postCreditSale, hr, he] at h
        rw [← h]
        rfl
      · simp [runOp, postCreditSale, hr, he] at h
    · simp [runOp, postCreditSale, hr] at h

/-- C10: the default-fill `req.body.date || new Date()` (procurement and
cash sale) and `req.body.dispatchDate || new Date()` (credit sale) tests
JS falsiness, not absence: any falsy body value (absent, null, false, 0,
empty string) is replaced by the server clock, any truthy value is passed
through to the store as given; and no validator chain of the three
endpoints ever inspects that field. -/
theorem c10_default_fill_is_falsiness :
    (∀ (u : User) (b : ProcBody) (now fid : Nat),
      (truthy b.date = true → (mkProcRec u b now fid).date = .fromBody b.date) ∧
      (truthy b.date = false → (mkProcRec u b now fid).date = .now now)) ∧
    (∀ (u : User) (b : CashBody) (now fid : Nat),
      (truthy b.date = true → (mkCashRec u b now fid).date = .fromBody b.date) ∧
      (truthy b.date = false → (mkCashRec u b now fid).date = .now now)) ∧
    (∀ (u : User) (b : CreditBody) (now fid : Nat),
      (truthy b.dispatchDate = true →
        (mkCreditRec u b now fid).dispatchDate = .fromBody b.dispatchDate) ∧
      (truthy b.dispatchDate = false → (mkCreditRec u b now fid).dispatchDate = .now now)) ∧
    (∀ (b : ProcBody) (v : JVal), validateProcBody { b with date := v } = validateProcBody b) ∧
    (∀ (b : CashBody) (v : JVal), validateCashBody { b with date := v } = validateCashBody b) ∧
    (∀ (b : CreditBody) (v : JVal),
      validateCreditBody { b with dispatchDate := v } = validateCreditBody b) := by
  refine ⟨?_, ?_, ?_, fun b v => rfl, fun b v => rfl, fun b v => rfl⟩ <;>
    exact fun u b now fid =>
      ⟨fun h => by simp [mkProcRec, mkCashRec, mkCreditRec, h],
       fun h => by simp [mkProcRec, mkCashRec, mkCreditRec, h]⟩

/-- A valid cash-sale body carrying a client-supplied recordedBy. -/
def demoCashBody : CashBody where
  produceName := .jstr "Maize"
  tonnage := .jnum 3
  amountPaid := .jnum 15000
  buyerName := .jstr "John Doe"
  salesAgentName := .jstr "Alice Agent"
  time := .jstr "09:15"
  recordedBy := .jnum 999

/-- A valid credit-sale body (isPaid and paymentDate omitted) carrying a
client-supplied recordedBy. -/
def demoCreditBody : CreditBody where
  buyerName := .jstr "John Doe"
  nationalId := .jstr "CM123456789"
  location := .jstr "Kampala"
  contacts := .jstr "0771234567"
  amountDue := .jnum 20000
  salesAgentName := .jstr "Alice Agent"
  dueDate := .jstr "2025-01-01"
  produceName := .jstr "Maize"
  produceType := .jstr "Cereal"
  tonnage := .jnum 5
  recordedBy := .jnum 999

/-- Witness for C2 at concrete inputs. -/
theorem c2_credit_payment_round_trip_witness :
    (mkCreditRec demoAgent demoCreditBody 0 1).isPaid = false ∧
    (mkCreditRec demoAgent demoCreditBody 0 1).paymentDate = none ∧
    (runOp (.payCredit (some demoAgent) 1) 5
        (runOp (.postCredit (some demoAgent) demoCreditBody 1) 0 emptyDB).db).resp
      = .ok (.sale (.credit (paidUpdate (mkCreditRec demoAgent demoCreditBody 0 1) 5))) ∧
    (paidUpdate (mkCreditRec demoAgent demoCreditBody 0 1) 5).paymentDate = some (.now 5) :=
  have h := c2_credit_payment_round_trip demoAgent demoCreditBody emptyDB 0 5 9 1
    (by decide) (by decide) rfl rfl (fun c hc => nomatch hc)
  ⟨h.2.1, h.2.2.1, h.2.2.2.1, h.2.2.2.2.2.1⟩

/-- Witness for C3 at concrete inputs. -/
theorem c3_procurement_tonnage_validation_witness :
    (∃ errs, (runOp (.postProc (some demoManager) {} 1) 0 emptyDB).resp = .badRequest errs ∧
      FieldError.mk "tonnage" "Tonnage must be at least 100 kg" ∈ errs) ∧
    (runOp (.postProc (some demoManager) {} 1) 0 emptyDB).db = emptyDB ∧
    Stage.persist ∉ (runOp (.postProc (some demoManager) {} 1) 0 emptyDB).trace :=
  c3_procurement_tonnage_validation demoManager {} emptyDB 0 1 rfl (Or.inl rfl)

/-- Witness for C4 at concrete inputs. -/
theorem c4_sale_amount_minimum_validation_witness :
    (∃ errs, (runOp (.postCash (some demoAgent) { amountPaid := .jnum 9999 } 1) 0 emptyDB).resp
        = .badRequest errs ∧
      FieldError.mk "amountPaid" "Amount paid must be at least 10,000 UgX" ∈ errs) ∧
    (∃ errs, (runOp (.postCredit (some demoAgent) { amountDue := .jnum 9999 } 1) 0 emptyDB).resp
        = .badRequest errs ∧
      FieldError.mk "amountDue" "Amount due must be at least 10,000 UgX" ∈ errs) :=
  ⟨(c4_sale_amount_minimum_validation.1 demoAgent { amountPaid := .jnum 9999 } emptyDB 0 1 9999
      (by decide) rfl (by decide)).1,
   (c4_sale_amount_minimum_validation.2 demoAgent { amountDue := .jnum 9999 } emptyDB 0 1 9999
      (by decide) rfl (by decide)).1⟩

/-- Witness for C5 at concrete inputs. -/
theorem c5_auth_first_strict_pipeline_witness :
    (runOp (.getProcs none) 0 emptyDB).resp = .unauthenticated "Not authorized" ∧
    (runOp (.getProcs none) 0 emptyDB).trace = [Stage.auth] ∧
    List.Sublist (runOp (.postProc (some demoManager) c6Body 1) 0 emptyDB).trace
      [Stage.auth, Stage.authz, Stage.validate, Stage.persist] :=
  ⟨(c5_auth_first_strict_pipeline.1 (.getProcs none) 0 emptyDB rfl).1,
   (c5_auth_first_strict_pipeline.1 (.getProcs none) 0 emptyDB rfl).2.2,
   c5_auth_first_strict_pipeline.2.1 (.postProc (some demoManager) c6Body 1) 0 emptyDB⟩

/-- Witness for C7 at concrete inputs. -/
theorem c7_validation_errors_collected_witness :
    (runOp (.postProc (some demoManager) {} 1) 0 emptyDB).resp
      = .badRequest (validateProcBody {}) ∧
    FieldError.mk "tonnage" "Tonnage must be at least 100 kg" ∈ validateProcBody ({} : ProcBody) :=
  ⟨c7_validation_errors_collected.1 demoManager {} emptyDB 0 1 (by decide) (by decide),
   (c7_validation_errors_collected.2.2.2.2.1 {}).2.2.2.2.1 rfl⟩

/-- Witness for C9 at concrete inputs. -/
theorem c9_recorded_by_is_requester_witness :
    (mkProcRec demoManager c6Body 0 1).recordedBy = demoManager.id ∧
    (mkCashRec demoAgent demoCashBody 0 1).recordedBy = demoAgent.id ∧
    (mkCreditRec demoAgent demoCreditBody 0 1).recordedBy = demoAgent.id :=
  ⟨c9_recorded_by_is_requester.1 demoManager c6Body emptyDB 0 1 _ (by decide),
   c9_recorded_by_is_requester.2.1 demoAgent demoCashBody emptyDB 0 1 _ (by decide),
   c9_recorded_by_is_requester.2.2 demoAgent demoCreditBody emptyDB 0 1 _ (by decide)⟩

/-- Witness for C10 at concrete inputs. -/
theorem c10_default_fill_is_falsiness_witness :
    (mkProcRec demoManager { date := .jstr "2025-05-05" } 0 1).date
      = .fromBody (.jstr "2025-05-05") ∧
    (mkProcRec demoManager ({} : ProcBody) 0 1).date = .now 0 ∧
    (mkCashRec demoAgent { date := .jnum 0 } 0 1).date = .now 0 ∧
    (mkCreditRec demoAgent { dispatchDate := .jstr "" } 0 1).dispatchDate = .now 0 ∧
    validateProcBody { date := .jstr "never checked" } = validateProcBody ({} : ProcBody) :=
  ⟨(c10_default_fill_is_falsiness.1 demoManager { date := .jstr "2025-05-05" } 0 1).1 rfl,
   (c10_default_fill_is_falsiness.1 demoManager {} 0 1).2 rfl,
   (c10_default_fill_is_falsiness.2.1 demoAgent { date := .jnum 0 } 0 1).2 rfl,
   (c10_default_fill_is_falsiness.2.2.1 demoAgent { dispatchDate := .jstr "" } 0 1).2 rfl,
   c10_default_fill_is_falsiness.2.2.2.1 {} (.jstr "never checked")⟩
